import Mathlib

/-!
Verification of the shunting-yard evaluation engine
(`src/math/src/engine.rs`).

The engine itself (`ShuntingYardEngine`) is embedded directly from the
source.  The collaborator types (`Number`, `Variable`, the error type and
the token definitions) live in crate modules that are not part of the
sources, so they are modelled from the specification, as marked on each
definition.  Rust panics (`unwrap()` on `None`, `todo!()`) are
unrecoverable traps distinct from `Result` errors; the embedding makes
them an explicit `Outcome.panic` value so that "returns an error" and
"traps" are distinguishable propositions.
-/

namespace Engine

/-- Modelled from the spec: the five binary arithmetic operator kinds
(`crate::token::Operator`). -/
inductive Operator
  | plus
  | minus
  | multiply
  | divide
  | power
deriving DecidableEq, Repr

/-- Modelled from the spec: the bracket kinds (`crate::token::Bracket`). -/
inductive Bracket
  | parenLeft
  | parenRight
  | verticalLine
deriving DecidableEq, Repr

/-- Modelled from the spec: the error taxonomy of `crate::error::Error`
(kinds, not concrete payloads): arithmetic-domain violations, undefined
identifiers, arity mismatches, malformed expressions, unsupported features. -/
inductive Error
  | arithmeticDomain
  | undefinedVariable
  | arityMismatch
  | malformedExpression
  | unsupportedFeature
deriving DecidableEq, Repr

/-- Outcome of one engine computation: either a crate `Error` surfaced
through `Result`, or an unrecoverable trap (`unwrap()` of `None`,
`todo!()`), which Rust does not return to the caller at all. -/
inductive Outcome
  | panic
  | err (e : Error)
deriving DecidableEq, Repr

/-- Modelled from the spec: `Number` is an opaque arithmetic value; the
claims only exercise exact rational arithmetic, so it is modelled as `Rat`. -/
abbrev Number := Rat

/-- Modelled from the spec: the `Default`/identity value of `Number`,
returned when an evaluation yields no operand. -/
def Number.default : Number := 0

/-- Modelled from the spec: fallible addition of `Number`s. -/
def Number.add (a b : Number) : Except Error Number := .ok (a + b)

/-- Modelled from the spec: fallible subtraction of `Number`s. -/
def Number.sub (a b : Number) : Except Error Number := .ok (a - b)

/-- Modelled from the spec: fallible multiplication of `Number`s. -/
def Number.mul (a b : Number) : Except Error Number := .ok (a * b)

/-- Modelled from the spec: fallible division of `Number`s; division by
zero is an arithmetic-domain error. -/
def Number.div (a b : Number) : Except Error Number :=
  if b = 0 then .error .arithmeticDomain else .ok (a / b)

/-- Modelled from the spec: fallible raise-to-power; only integral
exponents are in the domain, and `0` may not be raised to a negative
power. -/
def Number.power (a b : Number) : Except Error Number :=
  if b.den = 1 then
    if 0 ≤ b.num then .ok (a ^ b.num.toNat)
    else if a = 0 then .error .arithmeticDomain
    else .ok (a ^ b.num)
  else .error .arithmeticDomain

/-- Modelled from the spec: fallible unary factorial; the domain is the
non-negative integral values. -/
def Number.factorial (a : Number) : Except Error Number :=
  if a.den = 1 ∧ 0 ≤ a.num then .ok (Nat.factorial a.num.toNat : Rat)
  else .error .arithmeticDomain

/-- Modelled from the spec: a `Variable` is a named entity with a fixed
arity `argc` and a fallible `calc` operation taking exactly `argc`
`Number`s in left-to-right order.  (`calc` is a Lean keyword, so the
field is spelled `calcFn`.) -/
structure Variable where
  argc : Nat
  calcFn : List Number → Except Error Number

/-- Modelled from the spec: the variable environment is a name-to-Variable
mapping (`HashMap<String, Variable>`); the map's `get` is function
application. -/
abbrev Env := String → Option Variable

/-- Modelled from the spec: one lexical unit (`crate::token::Token`). -/
inductive Token
  | number (num : Number)
  | operator (op : Operator)
  | factorialSign
  | bracket (b : Bracket)
  | id (s : String)
  | comma

/-- The tagged marker-stack entry `ShuntingYardOperator`: a pending
operator, an open-parenthesis marker, or a pending `Variable` (function)
marker.  (`variable` is a Lean keyword, so that constructor is `var`.) -/
inductive ShuntingYardOperator
  | operator (op : Operator)
  | openParen
  | var (v : Variable)

/-- The engine's working state: the operator/marker stack and the operand
stack, both with the top of the stack at the head of the list. -/
structure ShuntingYardEngine where
  operators : List ShuntingYardOperator
  operands : List Number

/-- `operator_precedence` from the source: `{Plus, Minus} ↦ 0`,
`{Multiply, Divide} ↦ 1`, `Power ↦ 2`. -/
def operator_precedence (op : Operator) : Nat :=
  match op with
  | .plus | .minus => 0
  | .multiply | .divide => 1
  | .power => 2

/-- `evaluate_expr` from the source: dispatch a binary operator to the
corresponding fallible `Number` operation. -/
def evaluate_expr (lhs rhs : Number) (op : Operator) : Except Error Number :=
  match op with
  | .plus => Number.add lhs rhs
  | .minus => Number.sub lhs rhs
  | .multiply => Number.mul lhs rhs
  | .divide => Number.div lhs rhs
  | .power => Number.power lhs rhs

/-- `store_operand` from the source: push a value onto the operand stack. -/
def store_operand (s : ShuntingYardEngine) (val : Number) : ShuntingYardEngine :=
  { s with operands := val :: s.operands }

/-- The `while let` loop of `operator_handle`: while the marker stack's
top is a pending operator whose precedence is not strictly below the
incoming one, pop two operands — the FIRST pop is bound to `lhs`, the
SECOND to `rhs`, exactly as in the source — apply the pending operator,
push the result and pop the marker.  Popping an absent operand is an
`unwrap()` on `None`, i.e. a panic. -/
def operator_reduce (cur : Nat) :
    List ShuntingYardOperator → List Number →
    Except Outcome (List ShuntingYardOperator × List Number)
  | .operator last :: restOps, lhs :: rhs :: restNums =>
    if cur > operator_precedence last then
      .ok (.operator last :: restOps, lhs :: rhs :: restNums)
    else
      match evaluate_expr lhs rhs last with
      | .ok v => operator_reduce cur restOps (v :: restNums)
      | .error e => .error (.err e)
  | .operator last :: restOps, operands =>
    if cur > operator_precedence last then
      .ok (.operator last :: restOps, operands)
    else
      .error .panic
  | ops, operands => .ok (ops, operands)

/-- `operator_handle` from the source: run the precedence reduction for
the incoming operator `op`, then push `op` onto the marker stack. -/
def operator_handle (op : Operator) (s : ShuntingYardEngine) :
    Except Outcome ShuntingYardEngine :=
  match operator_reduce (operator_precedence op) s.operators s.operands with
  | .ok (ops, nums) => .ok ⟨.operator op :: ops, nums⟩
  | .error o => .error o

/-- The `while let Some(operator) = self.operators.pop()` loop of
`finalize`.  Each iteration pops the marker stack; a non-operator marker
is consumed and breaks the loop.  For a pending operator, `rhs` is the
running result if present and otherwise a popped operand, `lhs` is a
popped operand, and the combined value replaces the running result.
Missing operands are `unwrap()` panics. -/
def finalize_loop (res : Option Number) :
    List ShuntingYardOperator → List Number →
    Except Outcome (Option Number × List ShuntingYardOperator × List Number)
  | [], nums => .ok (res, [], nums)
  | .operator op :: restOps, nums =>
    match res, nums with
    | some r, lhs :: restNums =>
      match evaluate_expr lhs r op with
      | .ok v => finalize_loop (some v) restOps restNums
      | .error e => .error (.err e)
    | some _, [] => .error .panic
    | none, rhs :: lhs :: restNums =>
      match evaluate_expr lhs rhs op with
      | .ok v => finalize_loop (some v) restOps restNums
      | .error e => .error (.err e)
    | none, _ => .error .panic
  | _ :: restOps, nums => .ok (res, restOps, nums)

/-- `finalize` from the source: run the final-reduction loop starting
with no running result, returning the optional combined value and the
engine state left behind. -/
def finalize (s : ShuntingYardEngine) :
    Except Outcome (Option Number × ShuntingYardEngine) :=
  match finalize_loop none s.operators s.operands with
  | .ok (res, ops, nums) => .ok (res, ⟨ops, nums⟩)
  | .error o => .error o

/-- The `for _ in 0..argc` loop of `closing_bracket_handle`: pop `argc`
operands, inserting each popped operand at the front of the argument
list (`argv.insert(0, …)`), so arguments end up oldest-pushed first.
Popping an absent operand is an `unwrap()` panic. -/
def pop_args : Nat → List Number → List Number →
    Except Outcome (List Number × List Number)
  | 0, argv, nums => .ok (argv, nums)
  | n + 1, argv, x :: nums => pop_args n (x :: argv) nums
  | _ + 1, _, [] => .error .panic

/-- `closing_bracket_handle` from the source: run `finalize`; if it
produced a value, push it and return.  Otherwise, if the new top of the
marker stack is a pending `Variable` marker, pop `argc` operands, invoke
`calc`, pop the marker and push the call's result; if the top is
anything else, do nothing. -/
def closing_bracket_handle (s : ShuntingYardEngine) :
    Except Outcome ShuntingYardEngine :=
  match finalize s with
  | .error o => .error o
  | .ok (some num, s1) => .ok (store_operand s1 num)
  | .ok (none, s1) =>
    match s1.operators with
    | .var v :: restOps =>
      match pop_args v.argc [] s1.operands with
      | .error o => .error o
      | .ok (argv, nums) =>
        match v.calcFn argv with
        | .ok val => .ok (store_operand ⟨restOps, nums⟩ val)
        | .error e => .error (.err e)
    | _ => .ok s1

/-- One iteration of the token-dispatch loop of `evaluate`.  A
`FactorialSign` on an empty operand stack, an unresolvable identifier
(`vars.get(id).cloned().unwrap()`), and a `VerticalLine` bracket
(`todo!()`) are panics, exactly as in the source. -/
def step (vars : Env) (s : ShuntingYardEngine) :
    Token → Except Outcome ShuntingYardEngine
  | .number num => .ok (store_operand s num)
  | .operator op => operator_handle op s
  | .factorialSign =>
    match s.operands with
    | num :: rest =>
      match Number.factorial num with
      | .ok v => .ok (store_operand ⟨s.operators, rest⟩ v)
      | .error e => .error (.err e)
    | [] => .error .panic
  | .bracket .parenLeft => .ok ⟨.openParen :: s.operators, s.operands⟩
  | .bracket .parenRight => closing_bracket_handle s
  | .bracket .verticalLine => .error .panic
  | .id name =>
    match vars name with
    | some v => .ok ⟨.var v :: s.operators, s.operands⟩
    | none => .error .panic
  | .comma => .ok s

/-- The token-dispatch loop of `evaluate`: both stacks are cleared at
entry, then the tokens are folded left to right through `step`.  The
result is the engine state after the loop, before the final pop. -/
def evalState (tokens : List Token) (vars : Env) :
    Except Outcome ShuntingYardEngine :=
  tokens.foldlM (step vars) ⟨[], []⟩

/-- `evaluate` from the source: run the dispatch loop, then
`self.operands.pop().unwrap_or_default()` — the top of the operand stack,
or the default `Number` when the stack is empty. -/
def evaluate (tokens : List Token) (vars : Env) : Except Outcome Number :=
  match evalState tokens vars with
  | .ok s => .ok (s.operands.headD Number.default)
  | .error o => .error o

/-- `validate_tokens` from the source: the body is literally `Ok(())`. -/
def validate_tokens (tokens : List Token) (vars : Env) : Except Error Unit :=
  .ok ()

/-- `execute` from the source (`Engine` trait default method):
`validate_tokens` then, only on success, `evaluate`. -/
def execute (tokens : List Token) (vars : Env) : Except Outcome Number :=
  match validate_tokens tokens vars with
  | .ok _ => evaluate tokens vars
  | .error e => .error (.err e)

/-- An empty variable environment. -/
def env0 : Env := fun _ => none

/-- Modelled from the spec: the environment entry `max` with `argc = 2`,
returning the larger of its two arguments. -/
def maxVar : Variable :=
  ⟨2, fun args =>
    match args with
    | [x, y] => .ok (if x ≤ y then y else x)
    | _ => .error .arityMismatch⟩

/-- An environment binding only the name `max` to `maxVar`. -/
def env_max : Env := fun s => if s = "max" then some maxVar else none

/-- A one-argument function `f` whose result is visibly different from its
argument (argument sum plus 100), to make an uninvoked `calc` observable. -/
def fVar : Variable :=
  ⟨1, fun args => .ok (args.foldl (fun a b => a + b) 0 + 100)⟩

/-- An environment binding only the name `f` to `fVar`. -/
def env_f : Env := fun s => if s = "f" then some fVar else none

/-- The `for _ in 0..argc` argument-collection loop pops the first
`args.length` operands and returns them in reverse pop order (oldest
pushed first), leaving the rest of the operand stack untouched. -/
theorem pop_args_spec (args : List Number) :
    ∀ (acc nums : List Number),
      pop_args args.length acc (args ++ nums) = .ok (args.reverse ++ acc, nums) := by
  induction args with
  | nil => intro acc nums; rfl
  | cons x xs ih =>
    intro acc nums
    simpa [pop_args] using ih (x :: acc) nums

/-- Binding a successful `Except Outcome` computation just applies the
continuation. -/
theorem okBind {α β : Type} (x : α) (f : α → Except Outcome β) :
    (Except.ok x >>= f : Except Outcome β) = f x := rfl

/-- Binding a failed `Except Outcome` computation propagates the failure. -/
theorem errBind {α β : Type} (o : Outcome) (f : α → Except Outcome β) :
    (Except.error o >>= f : Except Outcome β) = .error o := rfl

/-- `pure` into `Except Outcome` is `Except.ok`. -/
theorem purePanicFree {α : Type} (x : α) :
    (pure x : Except Outcome α) = .ok x := rfl

/-- Claim C1: FALSIFIED by the code.  The token loop of `evaluate` never
drains the pending-operator stack after the last token, so for the
three-token binary expression `Number a, Operator op, Number b` the
result is always the bare right operand `b`, never `a op b`: the tokens
of `2 + 3` evaluate to `3` even though direct application of `+` gives
`5`. -/
theorem C1_no_final_reduction :
    (∀ (a b : Number) (op : Operator) (vars : Env),
      evaluate [Token.number a, Token.operator op, Token.number b] vars = .ok b) ∧
    evaluate [Token.number 2, Token.operator .plus, Token.number 3] env0 = .ok 3 ∧
    Number.add 2 3 = .ok 5 ∧
    evaluate [Token.number 2, Token.operator .plus, Token.number 3] env0 ≠ .ok 5 := by
  refine ⟨fun a b op vars => rfl, rfl, by norm_num [Number.add], ?_⟩
  intro h
  have h3 : evaluate [Token.number 2, Token.operator .plus, Token.number 3] env0
      = .ok 3 := rfl
  rw [h3] at h
  simp only [Except.ok.injEq] at h
  norm_num at h

/-- Claim C2: FALSIFIED by the code.  In the precedence-reduction loop of
`operator_handle` the operand popped FIRST is bound to `lhs` and the one
popped SECOND to `rhs`, the opposite of the claimed order, so the pending
operator is applied as (later-pushed) op (earlier-pushed): with `x` on
top of `y` the reduction pushes `x - y`, and the tokens of `8 - 3 - 2`
evaluate to `2` (the mid-stream reduction computes `3 - 8 = -5` and the
final pending operator is never applied), not to `3`. -/
theorem C2_pop_order_and_result :
    (∀ (x y : Number) (nums : List Number),
      operator_handle .minus ⟨[.operator .minus], x :: y :: nums⟩ =
        .ok ⟨[.operator .minus], (x - y) :: nums⟩) ∧
    evaluate [Token.number 8, Token.operator .minus, Token.number 3,
      Token.operator .minus, Token.number 2] env0 = .ok 2 ∧
    evaluate [Token.number 8, Token.operator .minus, Token.number 3,
      Token.operator .minus, Token.number 2] env0 ≠ .ok 3 := by
  refine ⟨fun x y nums => rfl, rfl, ?_⟩
  intro h
  have h2 : evaluate [Token.number 8, Token.operator .minus, Token.number 3,
      Token.operator .minus, Token.number 2] env0 = .ok 2 := rfl
  rw [h2] at h
  simp only [Except.ok.injEq] at h
  norm_num at h

/-- Claim C3: the code panics instead of returning an error.  Whenever
`evaluate` needs an operand and the operand stack is empty — a
`FactorialSign` with no preceding operand, or an operator reduction with
fewer than two operands — it reaches `self.operands.pop().unwrap()` on
`None`, an unrecoverable trap, not a `MalformedExpression` error. -/
theorem C3_stack_underflow_panics (vars : Env) :
    evaluate [Token.factorialSign] vars = .error .panic ∧
    evaluate [Token.number 1, Token.operator .plus, Token.operator .plus] vars
      = .error .panic :=
  ⟨rfl, rfl⟩

/-- Claim C4: the code panics instead of returning an error.  For an
`Identifier` token whose name has no entry in the environment,
`evaluate` reaches `variables.get(id).cloned().unwrap()` on `None`, an
unrecoverable trap, not an `UndefinedVariable` error. -/
theorem C4_undefined_identifier_panics :
    evaluate [Token.id "x"] env0 = .error .panic :=
  rfl

/-- Claim C5: CONFIRMED.  When `finalize` produced no value and the new
top of the marker stack is a pending `Variable` marker, the
closing-bracket handler pops exactly `argc` operands, assembles them
oldest-pushed first (the reverse of pop order), invokes the Variable's
`calc` on that ordered list, pops the marker, and pushes the call's
result; concretely, the tokens of `max(3, 7)` with the arity-2 `max`
environment entry evaluate to `7`. -/
theorem C5_function_call_resolution :
    (∀ (v : Variable) (rest : List ShuntingYardOperator) (args nums : List Number),
      args.length = v.argc →
      closing_bracket_handle ⟨.openParen :: .var v :: rest, args ++ nums⟩ =
        match v.calcFn args.reverse with
        | .ok val => .ok ⟨rest, val :: nums⟩
        | .error e => .error (.err e)) ∧
    evaluate [Token.id "max", Token.bracket .parenLeft, Token.number 3, Token.comma,
      Token.number 7, Token.bracket .parenRight] env_max = .ok 7 := by
  constructor
  · intro v rest args nums h
    simp only [closing_bracket_handle, finalize, finalize_loop]
    rw [← h, pop_args_spec args [] nums]
    cases hc : v.calcFn args.reverse <;> simp [hc, store_operand]
  · rfl

/-- Witness for C5: the general closing-bracket rule applied at the
concrete `max(3, 7)` call site, and the concrete evaluation itself. -/
theorem C5_function_call_witness :
    closing_bracket_handle ⟨[.openParen, .var maxVar], [7, 3]⟩ = .ok ⟨[], [7]⟩ ∧
    evaluate [Token.id "max", Token.bracket .parenLeft, Token.number 3, Token.comma,
      Token.number 7, Token.bracket .parenRight] env_max = .ok 7 := by
  constructor
  · have h := C5_function_call_resolution.1 maxVar [] [7, 3] [] rfl
    simp only [List.append_nil] at h
    rw [h]
    norm_num [maxVar]
  · exact C5_function_call_resolution.2

/-- Claim C6 counterexample: `validate_tokens` returns `Ok` on a token
sequence with an unbalanced bracket, and on one whose identifier has no
entry in the environment — it does not reject structurally invalid
input. -/
theorem C6_validate_accepts_invalid :
    validate_tokens [Token.bracket .parenLeft] env0 = .ok () ∧
    validate_tokens [Token.id "undefinedName"] env0 = .ok () :=
  ⟨rfl, rfl⟩

/-- Claim C6 as amended: `validate_tokens` is a no-op stub — it performs
no checks at all and returns `Ok(())` for every token sequence and every
environment. -/
theorem C6_validate_noop :
    ∀ (tokens : List Token) (vars : Env), validate_tokens tokens vars = .ok () :=
  fun _ _ => rfl

/-- Claim C7: the code panics unconditionally.  A `VerticalLine` bracket
token reaches `todo!()`, an unrecoverable trap, in every environment: it
is neither implemented as absolute-value grouping nor converted to an
`UnsupportedFeature` error. -/
theorem C7_vertical_line_panics (vars : Env) :
    evaluate [Token.bracket .verticalLine] vars = .error .panic :=
  rfl

/-- Claim C8 counterexample: `evaluate` succeeds on the tokens of `2 + 3`
(returning `3`) while the marker stack still holds the pending `+` and
the operand stack held two values before the final pop — the claimed
end-of-evaluation invariant (empty marker stack, at most one operand,
zero only for empty input) is violated. -/
theorem C8_invariant_fails :
    evaluate [Token.number 2, Token.operator .plus, Token.number 3] env0 = .ok 3 ∧
    evalState [Token.number 2, Token.operator .plus, Token.number 3] env0 =
      .ok ⟨[.operator .plus], [3, 2]⟩ ∧
    ([ShuntingYardOperator.operator .plus] : List ShuntingYardOperator) ≠ [] ∧
    ¬ ([(3 : Number), 2].length ≤ 1) := by
  refine ⟨rfl, rfl, by simp, by simp⟩

/-- Claim C8 as amended: on a successful evaluation the result is the top
of the final operand stack, or the default `Number` when that stack is
empty; the marker stack need not be empty, the operand stack may hold
more than one value, and it can be empty also for nonempty inputs such
as an empty parenthesized group. -/
theorem C8_final_state_amended :
    (∀ (tokens : List Token) (vars : Env) (s : ShuntingYardEngine),
      evalState tokens vars = .ok s →
      evaluate tokens vars = .ok (s.operands.headD Number.default)) ∧
    evalState [Token.number 2, Token.operator .plus, Token.number 3] env0 =
      .ok ⟨[.operator .plus], [3, 2]⟩ ∧
    evaluate [Token.bracket .parenLeft, Token.bracket .parenRight] env0 =
      .ok Number.default := by
  refine ⟨fun tokens vars s h => ?_, rfl, rfl⟩
  simp [evaluate, h]

/-- Witness for C8 (amended): the result-is-top-of-stack rule applied at
the concrete successful evaluation of `2 + 3`, whose final state keeps
the pending operator and both remaining operands. -/
theorem C8_final_state_witness :
    evaluate [Token.number 2, Token.operator .plus, Token.number 3] env0 = .ok 3 :=
  C8_final_state_amended.1 _ env0 ⟨[.operator .plus], [3, 2]⟩ rfl

/-- Claim C9: CONFIRMED.  For a function-call group whose argument
expression still has a pending binary operator on the marker stack when
the close-parenthesis arrives, `finalize` returns the combined value, the
closing-bracket handler pushes it and returns early, and the pending
`Variable` marker is left behind on the marker stack with its `calc`
never invoked: the final state after `f(a op b)` is exactly the marker
`f` plus the operand `a op b`, independent of `f`'s `calc`. -/
theorem C9_pending_operator_blocks_call
    (vars : Env) (name : String) (var : Variable) (a b : Number)
    (op : Operator) (v : Number)
    (henv : vars name = some var)
    (hop : evaluate_expr a b op = .ok v) :
    evalState [Token.id name, Token.bracket .parenLeft, Token.number a,
      Token.operator op, Token.number b, Token.bracket .parenRight] vars =
      .ok ⟨[.var var], [v]⟩ := by
  simp [evalState, List.foldlM, step, henv, operator_handle, operator_reduce,
    closing_bracket_handle, finalize, finalize_loop, hop, store_operand,
    okBind, errBind, purePanicFree]

/-- Witness for C9: the tokens of `f(1 + 2)` with `f` bound to an
arity-1 function; the final marker stack still holds the `f` marker, the
operand is the combined `3`, and `f`'s `calc` — which would have produced
`103` — was never invoked. -/
theorem C9_pending_operator_witness :
    evalState [Token.id "f", Token.bracket .parenLeft, Token.number 1,
      Token.operator .plus, Token.number 2, Token.bracket .parenRight] env_f =
      .ok ⟨[.var fVar], [3]⟩ ∧
    fVar.calcFn [3] = .ok 103 := by
  constructor
  · exact C9_pending_operator_blocks_call env_f "f" fVar 1 2 .plus 3 rfl (by
      norm_num [evaluate_expr, Number.add])
  · norm_num [fVar]

/-- Claim C10: CONFIRMED.  For every environment, evaluating the empty
parenthesized group `( )` succeeds: `finalize` consumes the open-paren
marker and produces no value, the closing-bracket handler finds no
pending `Variable` marker and does nothing, and the final pop of the
empty operand stack falls back to the default `Number`. -/
theorem C10_empty_parens_default (vars : Env) :
    evaluate [Token.bracket .parenLeft, Token.bracket .parenRight] vars =
      .ok Number.default :=
  rfl

end Engine
